import Mathlib

/-!
Verification of the localm model discovery, classification and loading core.

The definitions below are a shallow embedding of the worker-side code:
the catalog classifier of the listChatModels pipeline
(listChatModelsIterator, its classifyModel / prefilter / listing loop and
the adaptive-concurrency bookkeeping) and the ModelCache two-tier loader
(getModel and the WebLLM-then-Transformers fallback).  JavaScript values
that may be absent or falsy are embedded as Option with explicit
truthiness helpers; network responses are supplied through explicit
oracles so the event-driven code becomes pure state-passing functions.
-/

namespace Localm

/-! ## JavaScript string and truthiness helpers -/

/-- Truthiness of a possibly-absent JS string: present and non-empty. -/
def jsTruthy (o : Option String) : Bool :=
  !(o.getD "" == "")

/-- The JS `a || b` operator on possibly-absent strings. -/
def jsOr (a b : Option String) : Option String :=
  if jsTruthy a then a else b

/-- The JS `x || null` normalisation: an absent or empty string becomes null. -/
def jsOrNull (o : Option String) : Option String :=
  if jsTruthy o then o else none

/-- Chars-level check that the second list starts with the first. -/
def charsStartWith : List Char → List Char → Bool
  | [], _ => true
  | _ :: _, [] => false
  | a :: as, b :: bs => a == b && charsStartWith as bs

/-- Chars-level substring check: the pattern occurs somewhere in the text. -/
def charsContain (pat : List Char) : List Char → Bool
  | [] => charsStartWith pat []
  | b :: bs => charsStartWith pat (b :: bs) || charsContain pat bs

/-- The JS `hay.includes(pat)` substring test. -/
def strContains (hay pat : String) : Bool :=
  charsContain pat.toList hay.toList

/-- The JS `s.startsWith(pat)` test. -/
def strStarts (s pat : String) : Bool :=
  charsStartWith pat.toList s.toList

/-- ASCII lower-casing of one character, as JS toLowerCase does on ASCII. -/
def lowerChar (c : Char) : Char :=
  if 'A' ≤ c && c ≤ 'Z' then Char.ofNat (c.toNat + 32) else c

/-- ASCII lower-casing of a string, as JS toLowerCase does on ASCII input. -/
def lowerStr (s : String) : String :=
  String.mk (s.toList.map lowerChar)

/-! ## Data model of the catalog classifier -/

/-- One sibling entry of a remote listing entry: HF returns either a plain
filename string or an object carrying the filename under one of several
keys (rfilename, name, path, filename, repo_file, file), or null. -/
inductive Sib
  | str (s : String)
  | obj (rfilename name path filename repo_file file : Option String)
  | nullSib
deriving DecidableEq

/-- One raw entry of the remote model listing, with the fields the worker
reads: modelId / id / model naming variants, the declared pipeline_tag
capability and the sibling file descriptors. -/
structure RawModel where
  modelId : Option String
  id : Option String
  model : Option String
  pipeline_tag : Option String
  siblings : List Sib
deriving DecidableEq

/-- The architectures field of a fetched config: a JSON array of strings,
some non-array value, or absent (null). -/
inductive ArchVal
  | arr (l : List String)
  | nonArray
  | nullArch
deriving DecidableEq

/-- Result of fetchConfigForModel, mirroring the status-tagged objects the
source returns, plus an unrecognised-status case for totality of the
consumer. -/
inductive FetchResult
  | auth (code : Option Nat)
  | ok (model_type : Option String) (architectures : ArchVal)
  | noConfig
  | err (code : Option Nat) (message : Option String)
  | other (status : String)
deriving DecidableEq

/-- The classification entry built by classifyModel. -/
structure ClassEntry where
  id : Option String
  model_type : Option String
  architectures : Option (List String)
  classification : String
  confidence : String
  fetchStatus : String
  fetchError : Option (Option String × Option Nat)
deriving DecidableEq

/-- The encoder-only deny list of model_type family names. -/
def denyTypes : List String :=
  ["bert", "roberta", "distilbert", "electra", "albert", "deberta",
   "mobilebert", "convbert", "sentence-transformers"]

/-- The text-generation allow list of model_type family names. -/
def allowTypes : List String :=
  ["gpt2", "gptj", "gpt_neox", "llama", "qwen", "mistral", "phi", "gpt",
   "t5", "bart", "pegasus"]

/-- The JS `String(code || 401)` used for the auth fetchStatus. -/
def jsCodeStr (code : Option Nat) : String :=
  match code with
  | some c => if c == 0 then toString (401 : Nat) else toString c
  | none => toString (401 : Nat)

/-- The architectures scan of classifyModel: each entry is lower-cased and
checked against the allow list first, then the deny list; the first match
decides. -/
def archScan : List String → Option (String × String)
  | [] => none
  | a :: rest =>
    let al := lowerStr a
    if allowTypes.contains al then some ("gen", "high")
    else if denyTypes.contains al then some ("encoder", "high")
    else archScan rest

/-- The identifier chain of classifyModel:
rawModel.modelId or rawModel.id or rawModel.model or rawModel.modelId. -/
def classifyId (rawModel : RawModel) : Option String :=
  jsOr rawModel.modelId (jsOr rawModel.id (jsOr rawModel.model rawModel.modelId))

/-- Shared tail of the Ok branch of classifyModel once model_type matched
neither list: scan the architectures array if present, else unknown low. -/
def classifyArchCase (e : ClassEntry) (archN : Option (List String)) : ClassEntry :=
  match archN with
  | some l =>
    match archScan l with
    | some cc => { e with classification := cc.1, confidence := cc.2 }
    | none => { e with classification := "unknown", confidence := "low" }
  | none => { e with classification := "unknown", confidence := "low" }

/-- Shallow embedding of classifyModel from listChatModelsIterator.  The
noConfig branch keeps the source's dangling-else shape: the then branch of
the JS if ends with the braced block, the else covers only the
classification assignment, and the trailing confidence assignment runs
unconditionally, so the confidence written there is always low. -/
def classifyModel (rawModel : RawModel) (fetchResult : Option FetchResult) : ClassEntry :=
  let id := classifyId rawModel
  let entry0 : ClassEntry :=
    ⟨id, none, none, "unknown", "low", "error", none⟩
  match fetchResult with
  | none => entry0
  | some (.auth code) =>
    { entry0 with classification := "auth-protected", confidence := "high",
                  fetchStatus := jsCodeStr code }
  | some (.ok mt archs) =>
    let mtN := jsOrNull mt
    let archN : Option (List String) :=
      match archs with
      | .arr l => some l
      | _ => none
    let e1 := { entry0 with model_type := mtN, architectures := archN,
                            fetchStatus := "ok" }
    match mtN with
    | some t =>
      if denyTypes.contains t then
        { e1 with classification := "encoder", confidence := "high" }
      else if allowTypes.contains t then
        { e1 with classification := "gen", confidence := "high" }
      else classifyArchCase e1 archN
    | none => classifyArchCase e1 archN
  | some .noConfig =>
    let p := rawModel.pipeline_tag.getD ""
    let e1 :=
      if !(p == "") && strStarts p "text-generation" then
        { entry0 with classification := "gen", confidence := "medium" }
      else
        { entry0 with classification := "unknown" }
    { e1 with confidence := "low", fetchStatus := "404" }
  | some (.err code msg) =>
    { entry0 with classification := "unknown", confidence := "low",
                  fetchStatus := "error", fetchError := some (msg, code) }
  | some (.other _) => entry0

/-- Whether a fetch outcome is an auth error (HTTP 401 or 403). -/
def isAuthFR : Option FetchResult → Bool
  | some (.auth _) => true
  | _ => false

/-- Modelled from the spec claim for C8: on an Ok outcome, a modelType in
the deny set gives encoderOnly high, otherwise a modelType in the allow
set gives generation high, otherwise the architectures sequence is
scanned (allow before deny per entry, first match wins), otherwise
unknown low. -/
def specOkClass (mt : Option String) (archs : ArchVal) : String × String :=
  let fromArch :=
    match archs with
    | .arr l => (archScan l).getD ("unknown", "low")
    | _ => ("unknown", "low")
  match mt with
  | some t =>
    if denyTypes.contains t then ("encoder", "high")
    else if allowTypes.contains t then ("gen", "high")
    else fromArch
  | none => fromArch

/-! ## Helper lemmas about the classification cascade -/

theorem archScan_classes (l : List String) (x : String × String)
    (h : archScan l = some x) :
    x = ("gen", "high") ∨ x = ("encoder", "high") := by
  induction l with
  | nil => simp [archScan] at h
  | cons a rest ih =>
    simp only [archScan] at h
    split at h
    · exact Or.inl (Option.some.inj h).symm
    · split at h
      · exact Or.inr (Option.some.inj h).symm
      · exact ih h

theorem classifyArchCase_classes (e : ClassEntry) (archN : Option (List String)) :
    ((classifyArchCase e archN).classification = "gen"
      ∧ (classifyArchCase e archN).confidence = "high")
    ∨ ((classifyArchCase e archN).classification = "encoder"
      ∧ (classifyArchCase e archN).confidence = "high")
    ∨ ((classifyArchCase e archN).classification = "unknown"
      ∧ (classifyArchCase e archN).confidence = "low") := by
  unfold classifyArchCase
  match archN with
  | none => simp
  | some l =>
    cases h : archScan l with
    | none => simp [h]
    | some x =>
      rcases archScan_classes l x h with hx | hx <;> subst hx <;> simp [h]

theorem jsOrNull_none_eq : jsOrNull none = (none : Option String) := rfl

theorem jsOrNull_empty_eq : jsOrNull (some "") = (none : Option String) := rfl

theorem jsOrNull_some_eq (u : String) (hu : ¬u = "") : jsOrNull (some u) = some u := by
  simp [jsOrNull, jsTruthy, hu]

theorem classifyArchCase_pair (e : ClassEntry) (archN : Option (List String)) :
    ((classifyArchCase e archN).classification, (classifyArchCase e archN).confidence)
      = match archN with
        | some l => (archScan l).getD ("unknown", "low")
        | none => ("unknown", "low") := by
  unfold classifyArchCase
  match archN with
  | none => simp
  | some l => cases h : archScan l <;> simp [h]

theorem classifyModel_ok_pair (rawModel : RawModel) (mt : Option String) (archs : ArchVal) :
    ((classifyModel rawModel (some (.ok mt archs))).classification = "gen"
      ∧ (classifyModel rawModel (some (.ok mt archs))).confidence = "high")
    ∨ ((classifyModel rawModel (some (.ok mt archs))).classification = "encoder"
      ∧ (classifyModel rawModel (some (.ok mt archs))).confidence = "high")
    ∨ ((classifyModel rawModel (some (.ok mt archs))).classification = "unknown"
      ∧ (classifyModel rawModel (some (.ok mt archs))).confidence = "low") := by
  cases hmt : jsOrNull mt with
  | none =>
    simp only [classifyModel, hmt]
    exact classifyArchCase_classes _ _
  | some t =>
    simp only [classifyModel, hmt]
    by_cases hd : denyTypes.contains t
    · rw [if_pos hd]
      exact Or.inr (Or.inl ⟨rfl, rfl⟩)
    · rw [if_neg hd]
      by_cases ha : allowTypes.contains t
      · rw [if_pos ha]
        exact Or.inl ⟨rfl, rfl⟩
      · rw [if_neg ha]
        exact classifyArchCase_classes _ _

/-! ## Claim theorems about classifyModel -/

/-- Claim C2 evaluated on the code: for a candidate whose config fetch
ends in NotFound and whose declared pipeline_tag is text-generation, the
code classifies it as gen but with confidence low, because the trailing
confidence assignment after the dangling else overwrites the medium just
assigned.  The claim (and the spec, including its end-to-end scenario for
org/mystery-model) requires confidence medium here. -/
theorem c2_noconfig_text_generation_is_low :
    classifyModel
      ⟨some "org/mystery-model", none, none, some "text-generation", [Sib.str "tokenizer.json"]⟩
      (some FetchResult.noConfig)
      = ⟨some "org/mystery-model", none, none, "gen", "low", "404", none⟩
    ∧ classifyModel
      ⟨some "org/other-model", none, none, some "image-classification", []⟩
      (some FetchResult.noConfig)
      = ⟨some "org/other-model", none, none, "unknown", "low", "404", none⟩ := by
  exact ⟨rfl, rfl⟩

/-- Claim C7: classifyModel yields auth-protected with confidence high
exactly on auth-error fetch outcomes, and only on them, regardless of the
candidate entry. -/
theorem c7_auth_precedence (rawModel : RawModel) (fetchResult : Option FetchResult) :
    ((classifyModel rawModel fetchResult).classification = "auth-protected"
      ↔ isAuthFR fetchResult = true)
    ∧ (isAuthFR fetchResult = true
        → (classifyModel rawModel fetchResult).confidence = "high") := by
  cases fetchResult with
  | none => simp [classifyModel, isAuthFR]
  | some fr =>
    cases fr with
    | auth code => simp [classifyModel, isAuthFR]
    | ok mt archs =>
      rcases classifyModel_ok_pair rawModel mt archs with h | h | h <;>
        simp [isAuthFR, h.1]
    | noConfig =>
      constructor
      · simp only [classifyModel, isAuthFR]
        split <;> simp
      · simp [isAuthFR]
    | err code msg => simp [classifyModel, isAuthFR]
    | other s => simp [classifyModel, isAuthFR]

/-- Witness for C7 at a concrete auth outcome and a concrete allow-listed
looking identifier. -/
theorem c7_auth_precedence_witness :
    (classifyModel ⟨some "meta-llama/Llama-2", none, none, some "text-generation", []⟩
        (some (FetchResult.auth (some 401)))).classification = "auth-protected"
    ∧ (classifyModel ⟨some "meta-llama/Llama-2", none, none, some "text-generation", []⟩
        (some (FetchResult.auth (some 401)))).confidence = "high" := by
  have h := c7_auth_precedence
    ⟨some "meta-llama/Llama-2", none, none, some "text-generation", []⟩
    (some (FetchResult.auth (some 401)))
  exact ⟨h.1.mpr (by decide), h.2 (by decide)⟩

/-- Claim C8: on every Ok fetch outcome the classification and confidence
follow the deny-then-allow modelType priority, then the case-insensitive
architectures scan with allow before deny per entry, and otherwise
unknown low. -/
theorem c8_ok_priority (rawModel : RawModel) (mt : Option String) (archs : ArchVal) :
    ((classifyModel rawModel (some (.ok mt archs))).classification,
     (classifyModel rawModel (some (.ok mt archs))).confidence)
      = specOkClass mt archs := by
  cases mt with
  | none =>
    simp only [classifyModel, jsOrNull_none_eq, specOkClass]
    rw [classifyArchCase_pair]
    cases archs <;> rfl
  | some u =>
    by_cases hu : u = ""
    · subst hu
      simp only [classifyModel, jsOrNull_empty_eq, specOkClass]
      rw [if_neg (by decide), if_neg (by decide)]
      rw [classifyArchCase_pair]
      cases archs <;> rfl
    · simp only [classifyModel, jsOrNull_some_eq u hu, specOkClass]
      by_cases hd : denyTypes.contains u
      · rw [if_pos hd, if_pos hd]
      · rw [if_neg hd, if_neg hd]
        by_cases ha : allowTypes.contains u
        · rw [if_pos ha, if_pos ha]
        · rw [if_neg ha, if_neg ha]
          rw [classifyArchCase_pair]
          cases archs <;> rfl

/-- Claim C10: classifyModel is total over every raw entry and every fetch
outcome shape, and always lands in the documented classification and
confidence ranges. -/
theorem c10_classify_total (rawModel : RawModel) (fetchResult : Option FetchResult) :
    (classifyModel rawModel fetchResult).classification
      ∈ (["gen", "encoder", "unknown", "auth-protected"] : List String)
    ∧ (classifyModel rawModel fetchResult).confidence
      ∈ (["high", "medium", "low"] : List String) := by
  cases fetchResult with
  | none => simp [classifyModel]
  | some fr =>
    cases fr with
    | auth code => simp [classifyModel]
    | ok mt archs =>
      rcases classifyModel_ok_pair rawModel mt archs with h | h | h <;>
        · rw [h.1, h.2]
          simp
    | noConfig =>
      unfold classifyModel
      simp only
      split <;> simp
    | err code msg => simp [classifyModel]
    | other s => simp [classifyModel]

/-! ## Prefilter of the listing phase -/

/-- The closed deny set of pipeline tags discarded by the prefilter. -/
def denyPipe : List String :=
  ["feature-extraction", "fill-mask", "sentence-similarity", "masked-lm"]

/-- The filename patterns whose presence among siblings suggests a
tokenizer: the prefilter regex alternatives, matched case-insensitively. -/
def tokPats : List String :=
  ["tokenizer", "vocab", "merges", "sentencepiece"]

/-- Extraction of a sibling filename: a falsy sibling gives nothing, a
string is its own name, an object yields the first truthy field among
rfilename, name, path, filename, repo_file, file. -/
def sibName : Sib → Option String
  | .str s => if s == "" then none else some s
  | .obj rfilename name path filename repo_file file =>
    jsOrNull (jsOr rfilename (jsOr name (jsOr path (jsOr filename (jsOr repo_file file)))))
  | .nullSib => none

/-- Whether one sibling matches the tokenizer-filename regex. -/
def sibHasTok (s : Sib) : Bool :=
  match sibName s with
  | some n => tokPats.any (fun p => strContains (lowerStr n) p)
  | none => false

/-- Whether any sibling filename suggests a tokenizer. -/
def hasTokenizerSib (m : RawModel) : Bool :=
  m.siblings.any sibHasTok

/-- The normalised identifier used by the prefilter:
(m.modelId or m.id or m.model or the empty string). -/
def prefilterId (m : RawModel) : String :=
  (jsOr m.modelId (jsOr m.id m.model)).getD ""

/-- The prefilter discard condition, in source order: deny-set pipeline
tag, sentence-transformers identifier, or missing tokenizer sibling
without a text-generation pipeline tag to waive the check. -/
def discardEntry (m : RawModel) : Bool :=
  (jsTruthy m.pipeline_tag && denyPipe.contains (m.pipeline_tag.getD ""))
  || (!(prefilterId m == "") && strContains (prefilterId m) "sentence-transformers")
  || (!(hasTokenizerSib m)
      && (!(jsTruthy m.pipeline_tag)
          || !(strContains (lowerStr (m.pipeline_tag.getD "")) "text-generation")))

/-- The prefilter loop: stop once maxCandidates survivors are collected,
discard entries matching discardEntry, keep the rest in order. -/
def prefilterGo (maxCandidates : Nat) : List RawModel → Nat → List RawModel
  | [], _ => []
  | m :: rest, cnt =>
    if maxCandidates ≤ cnt then []
    else if discardEntry m then prefilterGo maxCandidates rest cnt
    else m :: prefilterGo maxCandidates rest (cnt + 1)

/-- The prefilter of the listing phase. -/
def prefilter (maxCandidates : Nat) (listing : List RawModel) : List RawModel :=
  prefilterGo maxCandidates listing 0

/-- Modelled from the spec claim for C4: an entry is kept iff its
capability tag is not in the deny set, its identifier does not match the
sentence-transformers naming convention, and either some sibling filename
suggests a tokenizer or the declared capability tag indicates text
generation (the waiver). -/
def keepSpec (m : RawModel) : Bool :=
  !(denyPipe.contains (m.pipeline_tag.getD ""))
  && !(strContains (prefilterId m) "sentence-transformers")
  && (hasTokenizerSib m
      || strContains (lowerStr (m.pipeline_tag.getD "")) "text-generation")

theorem discardEntry_eq_not_keep (m : RawModel) :
    discardEntry m = !(keepSpec m) := by
  unfold discardEntry keepSpec
  have hid : (!(prefilterId m == "") && strContains (prefilterId m) "sentence-transformers")
      = strContains (prefilterId m) "sentence-transformers" := by
    by_cases h : prefilterId m = ""
    · rw [h]
      decide
    · have hb : (prefilterId m == "") = false := by simp [h]
      rw [hb]
      simp
  rw [hid]
  cases hp : m.pipeline_tag with
  | none =>
    simp only [Option.getD_none]
    have h1 : jsTruthy none = false := rfl
    rw [h1]
    cases hasTokenizerSib m <;>
      cases strContains (prefilterId m) "sentence-transformers" <;> rfl
  | some p =>
    simp only [Option.getD_some]
    by_cases hpe : p = ""
    · subst hpe
      have h1 : jsTruthy (some "") = false := rfl
      rw [h1]
      cases hasTokenizerSib m <;>
        cases strContains (prefilterId m) "sentence-transformers" <;> rfl
    · have h1 : jsTruthy (some p) = true := by
        simp [jsTruthy, hpe]
      rw [h1]
      cases denyPipe.contains p <;>
        cases hasTokenizerSib m <;>
          cases strContains (lowerStr p) "text-generation" <;>
            cases strContains (prefilterId m) "sentence-transformers" <;> rfl

theorem prefilterGo_eq (maxCandidates : Nat) (l : List RawModel) (cnt : Nat) :
    prefilterGo maxCandidates l cnt
      = (l.filter keepSpec).take (maxCandidates - cnt) := by
  induction l generalizing cnt with
  | nil => simp [prefilterGo]
  | cons m rest ih =>
    unfold prefilterGo
    by_cases hc : maxCandidates ≤ cnt
    · rw [if_pos hc, Nat.sub_eq_zero_of_le hc]
      simp
    · rw [if_neg hc]
      by_cases hk : keepSpec m = true
      · have hdm : discardEntry m = false := by
          rw [discardEntry_eq_not_keep, hk]
          rfl
        rw [hdm]
        simp only [Bool.false_eq_true, if_false]
        rw [List.filter_cons_of_pos hk]
        have hsub : maxCandidates - cnt = (maxCandidates - (cnt + 1)) + 1 := by omega
        rw [hsub, List.take_succ_cons, ih]
      · have hk' : keepSpec m = false := by
          cases h : keepSpec m
          · rfl
          · exact absurd h hk
        have hdm : discardEntry m = true := by
          rw [discardEntry_eq_not_keep, hk']
          rfl
        rw [hdm]
        simp only [if_true]
        rw [List.filter_cons_of_neg hk, ih]

/-- Claim C4: the prefilter keeps exactly the entries that pass the deny
set, the sentence-transformers naming check, and the tokenizer-sibling
requirement (waived for text-generation tags), capped at maxCandidates in
listing order. -/
theorem c4_prefilter (maxCandidates : Nat) (listing : List RawModel) :
    prefilter maxCandidates listing
      = (listing.filter keepSpec).take maxCandidates := by
  unfold prefilter
  rw [prefilterGo_eq, Nat.sub_zero]

/-! ## Listing phase

The listing loop is driven by the network; here the successive fetch
responses are supplied as an explicit oracle list, one element per fetch
call, and the loop becomes a pure function consuming that list. -/

/-- One response of the listing endpoint: a JSON page, HTTP 429, or a
non-retryable HTTP error status. -/
inductive PageResp (α : Type)
  | okPage (page : List α)
  | rate
  | httpErr (code : Nat)

/-- Result of the inner retry loop for one page. -/
inductive AttemptRes (α : Type)
  | got (page : List α)
  | emptyPage
  | exhausted429
  | fatal (code : Nat)
  | noResp

/-- The RETRIES constant of the listing loop. -/
def listingRetries : Nat := 3

/-- The inner attempt loop for one listing page: a 429 backs off and
retries until the attempt counter passes RETRIES, a thrown fetch error is
retried the same way but rethrown on the last attempt, a 2xx page ends
the loop. -/
def pageAttempt : List (PageResp α) → Nat → AttemptRes α × List (PageResp α)
  | [], _ => (.noResp, [])
  | r :: rest, attempt =>
    match r with
    | .okPage page => if page.isEmpty then (.emptyPage, rest) else (.got page, rest)
    | .rate =>
      if listingRetries ≤ attempt then (.exhausted429, rest)
      else pageAttempt rest (attempt + 1)
    | .httpErr c =>
      if listingRetries ≤ attempt then (.fatal c, rest)
      else pageAttempt rest (attempt + 1)

/-- Outcome of the listing phase: the accumulated listing, or the thrown
listing-fetch-failed error that aborts the pipeline. -/
inductive ListingOutcome (α : Type)
  | success (listing : List α)
  | fatal (code : Nat)

/-- The outer listing loop: accumulate pages while the listing is below
maxTotal; 429 exhaustion stops listing early with the partial data; a
rethrown fetch error aborts the whole pipeline.  An empty page leaves the
listing and offset unchanged and the loop fetches again.  Fuel bounds the
number of iterations; one response is consumed per iteration at least, so
fuel equal to the oracle length is enough. -/
def listingLoop (maxTotal : Nat) : Nat → List (PageResp α) → List α → ListingOutcome α
  | _, [], listing => .success listing
  | 0, _ :: _, listing => .success listing
  | fuel + 1, r :: rs, listing =>
    if maxTotal ≤ listing.length then .success listing
    else
      match pageAttempt (r :: rs) 0 with
      | (.got page, rest) => listingLoop maxTotal fuel rest (listing ++ page)
      | (.emptyPage, rest) => listingLoop maxTotal fuel rest listing
      | (.exhausted429, _) => .success listing
      | (.fatal c, _) => .fatal c
      | (.noResp, _) => .success listing

/-- Run the listing loop on a finite oracle of fetch responses. -/
def runListing (maxTotal : Nat) (responses : List (PageResp α)) : ListingOutcome α :=
  listingLoop maxTotal responses.length responses []

/-- A sample listing entry used in concrete runs. -/
def sampleEntry : RawModel :=
  ⟨some "org/sample-model", none, none, some "text-generation", [Sib.str "tokenizer.json"]⟩

/-- Counterexample to claim C3: after a first page was fetched
successfully (one entry collected), a persistent non-retryable HTTP 500
on the next page exhausts the retries and aborts the whole pipeline with
the fatal listing-fetch-failed error, instead of proceeding with the
partial listing as the claim states. -/
theorem c3_counterexample :
    runListing 5000
        [PageResp.okPage [sampleEntry]]
      = ListingOutcome.success [sampleEntry]
    ∧ runListing 5000
        [PageResp.okPage [sampleEntry], PageResp.httpErr 500, PageResp.httpErr 500,
         PageResp.httpErr 500, PageResp.httpErr 500]
      = ListingOutcome.fatal 500 := by
  exact ⟨rfl, rfl⟩

/-- Claim C3 amended: a non-retryable HTTP error on a page fetch is
retried up to the retry cap and, if it persists on all four attempts,
aborts the whole pipeline as a fatal error regardless of how many entries
were already collected; only 429 exhaustion (and an empty or exhausted
oracle) makes the pipeline proceed with the partial listing. -/
theorem c3_fatal_regardless (maxTotal fuel : Nat) (listing : List RawModel)
    (rs : List (PageResp RawModel)) (c : Nat)
    (h : listing.length < maxTotal) :
    listingLoop maxTotal (fuel + 1)
        (PageResp.httpErr c :: PageResp.httpErr c :: PageResp.httpErr c ::
         PageResp.httpErr c :: rs) listing
      = ListingOutcome.fatal c
    ∧ listingLoop maxTotal (fuel + 1)
        (PageResp.rate :: PageResp.rate :: PageResp.rate :: PageResp.rate :: rs) listing
      = ListingOutcome.success listing := by
  have hle : ¬maxTotal ≤ listing.length := by omega
  constructor
  · simp only [listingLoop]
    rw [if_neg hle]
    simp [pageAttempt, listingRetries]
  · simp only [listingLoop]
    rw [if_neg hle]
    simp [pageAttempt, listingRetries]

/-- Witness for the amended C3 theorem at a concrete partial listing. -/
theorem c3_fatal_regardless_witness :
    ([sampleEntry].length < 5000)
    ∧ listingLoop 5000 1
        [PageResp.httpErr 500, PageResp.httpErr 500, PageResp.httpErr 500,
         PageResp.httpErr 500] [sampleEntry]
      = ListingOutcome.fatal 500 := by
  refine ⟨by norm_num, ?_⟩
  exact (c3_fatal_regardless 5000 0 [sampleEntry] [] 500 (by norm_num)).1

/-! ## Adaptive concurrency and rate-limit bookkeeping

State of the counting semaphore and the sliding 429 window of
listChatModelsIterator.  Timestamps are milliseconds as Nat; the number of
requests currently holding a token is tracked explicitly so that the
no-abort property of a concurrency reduction can be stated. -/

/-- The 30-second sliding window for 429 detection, in milliseconds. -/
def RATE_WINDOW_MS : Nat := 30000

/-- The 429 count that triggers a concurrency reduction. -/
def RATE_THRESHOLD : Nat := 10

/-- The backoff period after a triggered reduction, in milliseconds. -/
def BACKOFF_WINDOW_MS : Nat := 30000

/-- Mutable state of the adaptive concurrency policy. -/
structure RState where
  recent429s : List Nat
  initialConcurrency : Nat
  effectiveConcurrency : Nat
  availableTokens : Nat
  tokenWaiters : Nat
  rateLimitedUntil : Nat
  holding : Nat
deriving DecidableEq

/-- Drop window entries older than 30 seconds from the front. -/
def pruneOld429s (now : Nat) : List Nat → List Nat
  | [] => []
  | t :: rest => if t < now - RATE_WINDOW_MS then pruneOld429s now rest else t :: rest

/-- record429: push the current timestamp, prune the window, and when the
window count reaches the threshold halve effectiveConcurrency (floor 1),
shrink availableTokens by the reduction (floor 0) without touching
requests that already hold a token, and set the 30-second backoff. -/
def record429 (s : RState) (now : Nat) : RState :=
  let r := pruneOld429s now (s.recent429s ++ [now])
  if RATE_THRESHOLD ≤ r.length then
    let newEff := max 1 (s.effectiveConcurrency / 2)
    let reduction := s.effectiveConcurrency - newEff
    if 0 < reduction then
      { s with recent429s := r,
               effectiveConcurrency := newEff,
               availableTokens := s.availableTokens - reduction,
               rateLimitedUntil := now + BACKOFF_WINDOW_MS }
    else
      { s with recent429s := r, rateLimitedUntil := now + BACKOFF_WINDOW_MS }
  else
    { s with recent429s := r }

/-- maybeRestoreConcurrency: outside the backoff period, when the pruned
window is empty and effectiveConcurrency is below the original value,
raise it by one, give back one token (capped at the new concurrency) and
wake one waiter. -/
def maybeRestoreConcurrency (s : RState) (now : Nat) : RState :=
  let r := pruneOld429s now s.recent429s
  if now < s.rateLimitedUntil then { s with recent429s := r }
  else if r.length = 0 && decide (s.effectiveConcurrency < s.initialConcurrency) then
    let eff := min s.initialConcurrency (s.effectiveConcurrency + 1)
    { s with recent429s := r,
             effectiveConcurrency := eff,
             availableTokens := min (s.availableTokens + 1) eff,
             tokenWaiters := s.tokenWaiters - 1 }
  else { s with recent429s := r }

/-- acquireToken in the non-blocking case: consume a token and hold it.
When no token is available the caller queues as a waiter instead. -/
def acquireToken (s : RState) : RState × Bool :=
  if 0 < s.availableTokens then
    ({ s with availableTokens := s.availableTokens - 1, holding := s.holding + 1 }, true)
  else
    ({ s with tokenWaiters := s.tokenWaiters + 1 }, false)

/-- releaseToken: give the token back, capped at effectiveConcurrency. -/
def releaseToken (s : RState) : RState :=
  { s with availableTokens := min s.effectiveConcurrency (s.availableTokens + 1),
           holding := s.holding - 1 }

/-- Claim C9: when the 429 window reaches the threshold of 10,
effectiveConcurrency is halved with floor 1 and the 30-second backoff
starts; during the backoff no restoration changes the concurrency or the
tokens; after it, with an empty window, restoration raises the
concurrency by one per tick and never beyond the original; and a
reduction never takes a token away from a request already holding one. -/
theorem c9_rate_limit_policy (s : RState) (now : Nat)
    (h1 : 1 ≤ s.effectiveConcurrency)
    (h2 : s.effectiveConcurrency ≤ s.initialConcurrency) :
    (record429 s now).holding = s.holding
    ∧ 1 ≤ (record429 s now).effectiveConcurrency
    ∧ (RATE_THRESHOLD ≤ (record429 s now).recent429s.length →
        (record429 s now).effectiveConcurrency = max 1 (s.effectiveConcurrency / 2)
        ∧ (record429 s now).rateLimitedUntil = now + BACKOFF_WINDOW_MS)
    ∧ (now < s.rateLimitedUntil →
        (maybeRestoreConcurrency s now).effectiveConcurrency = s.effectiveConcurrency
        ∧ (maybeRestoreConcurrency s now).availableTokens = s.availableTokens)
    ∧ (maybeRestoreConcurrency s now).effectiveConcurrency ≤ s.initialConcurrency
    ∧ (s.rateLimitedUntil ≤ now →
        pruneOld429s now s.recent429s = [] →
        s.effectiveConcurrency < s.initialConcurrency →
        (maybeRestoreConcurrency s now).effectiveConcurrency
          = s.effectiveConcurrency + 1) := by
  have hrec : (record429 s now).recent429s = pruneOld429s now (s.recent429s ++ [now]) := by
    simp only [record429]
    split
    · split <;> rfl
    · rfl
  refine ⟨?_, ?_, ?_, ?_, ?_, ?_⟩
  · simp only [record429]
    split
    · split <;> rfl
    · rfl
  · simp only [record429]
    split
    · split
      · exact le_max_left 1 _
      · exact h1
    · exact h1
  · intro hth
    rw [hrec] at hth
    simp only [record429]
    rw [if_pos hth]
    by_cases hred : 0 < s.effectiveConcurrency - max 1 (s.effectiveConcurrency / 2)
    · rw [if_pos hred]
      exact ⟨rfl, rfl⟩
    · rw [if_neg hred]
      refine ⟨?_, rfl⟩
      show s.effectiveConcurrency = max 1 (s.effectiveConcurrency / 2)
      omega
  · intro hb
    simp only [maybeRestoreConcurrency]
    rw [if_pos hb]
    exact ⟨rfl, rfl⟩
  · simp only [maybeRestoreConcurrency]
    split
    · exact h2
    · split
      · exact min_le_left _ _
      · exact h2
  · intro hb hw hlt
    simp only [maybeRestoreConcurrency]
    rw [if_neg (by omega), hw]
    rw [if_pos (by simp [hlt])]
    show min s.initialConcurrency (s.effectiveConcurrency + 1) = s.effectiveConcurrency + 1
    omega

/-- Witness for C9 at a concrete saturated window and a concrete
restoration step. -/
theorem c9_rate_limit_policy_witness :
    (1 ≤ (12 : Nat) ∧ (12 : Nat) ≤ 12)
    ∧ (record429 ⟨[0, 1, 2, 3, 4, 5, 6, 7, 8], 12, 12, 12, 0, 0, 0⟩ 9).effectiveConcurrency
        = max 1 (12 / 2) := by
  refine ⟨⟨by norm_num, le_refl 12⟩, ?_⟩
  have h := c9_rate_limit_policy ⟨[0, 1, 2, 3, 4, 5, 6, 7, 8], 12, 12, 12, 0, 0, 0⟩ 9
    (by norm_num) (le_refl 12)
  exact (h.2.2.1 (by decide)).1

/-! ## Model load cache

The ModelCache keeps a map from model name to either the pending load
promise or the loaded model.  getModel together with the synchronous part
of loadModelAndStore (creating the loader and storing it before any other
task can run) is one atomic state transition; the asynchronous settlement
of the loader (store the model, or delete the entry on rejection) is a
second transition.  Load identities number the created loader promises
and loadsStarted logs every started WebLLM-then-Transformers attempt
sequence. -/

/-- A loaded inference handle: the fast WebLLM engine, or a
Transformers.js model together with the device that succeeded. -/
inductive LoadedHandle (α β : Type)
  | fast (engine : α)
  | fb (model : β) (device : String)
deriving DecidableEq

/-- One cache entry: the pending loader promise or the stored handle. -/
inductive CEntry (α β : Type)
  | pending (loadId : Nat)
  | stored (h : LoadedHandle α β)
deriving DecidableEq

/-- State of the ModelCache. -/
structure MC (α β : Type) where
  cache : String → Option (CEntry α β)
  nextLoadId : Nat
  loadsStarted : List String

/-- The cache at worker startup. -/
def emptyMC : MC α β :=
  ⟨fun _ => none, 0, []⟩

/-- getModel: return the cached entry if present, otherwise create the
loader, store the pending entry and log the started load attempt. -/
def getModel (s : MC α β) (modelName : String) : CEntry α β × MC α β :=
  match s.cache modelName with
  | some e => (e, s)
  | none =>
    let e := CEntry.pending s.nextLoadId
    (e, { cache := fun n => if n = modelName then some e else s.cache n,
          nextLoadId := s.nextLoadId + 1,
          loadsStarted := s.loadsStarted ++ [modelName] })

/-- n successive getModel calls for the same name, as issued by n
concurrent callers interleaving on the cooperative event loop. -/
def getModelN : Nat → MC α β → String → List (CEntry α β) × MC α β
  | 0, s, _ => ([], s)
  | n + 1, s, modelName =>
    let r := getModel s modelName
    let rest := getModelN n r.2 modelName
    (r.1 :: rest.1, rest.2)

/-- Environment of one load attempt: the WebLLM probe verdict, the result
of engine instantiation, the smoke-test completion content for a given
engine, and the Transformers.js loadModelCore result per device (the
error string standing for the thrown stack). -/
structure LoadEnv (α β : Type) where
  probePossible : Bool
  createEngine : Except String α
  smokeContent : α → Except String (Option String)
  loadCore : String → Except String β

/-- The Tier-2 device candidate list: the source overwrites the earlier
candidate computation with the literal list containing only auto. -/
def transformersCandidates : List String :=
  ["auto"]

/-- JSON.stringify of a list of strings. -/
def jsonStrArr (l : List String) : String :=
  "[" ++ String.intercalate "," (l.map (fun s => "\"" ++ s ++ "\"")) ++ "]"

/-- The aggregated error message thrown when every device fails, listing
each device's failure. -/
def backendsFailedMsg (errs : List String) : String :=
  "Backends failed: " ++ jsonStrArr transformersCandidates ++ ", errors:\n\n"
    ++ String.intercalate "\n\n" errs

/-- The Tier-2 device loop of loadTransformersModelNow: try each device
in order, return the first success with its device, otherwise throw the
aggregated error collecting one line per failed device. -/
def loadTransformersGo (loadCore : String → Except String β) :
    List String → List String → Except String (β × String)
  | [], errs => .error (backendsFailedMsg errs)
  | d :: rest, errs =>
    match loadCore d with
    | .ok m => .ok (m, d)
    | .error e => loadTransformersGo loadCore rest (errs ++ [d ++ ": " ++ e])

/-- loadTransformersModelNow over the candidate devices. -/
def loadTransformersNow (env : LoadEnv α β) : Except String (β × String) :=
  loadTransformersGo env.loadCore transformersCandidates []

/-- The Tier-2 outcome as a handle. -/
def tier2Result (env : LoadEnv α β) : Except String (LoadedHandle α β) :=
  match loadTransformersNow env with
  | .ok md => .ok (.fb md.1 md.2)
  | .error e => .error e

/-- loadWebLLMOrFallbackToTransformersModelNow: when the probe allows it,
instantiate the WebLLM engine and validate it with a smoke completion;
any exception or an empty trimmed response falls through to Tier 2, and
only a validated engine is returned as the fast handle. -/
def loadWebLLMOrFallback (env : LoadEnv α β) : Except String (LoadedHandle α β) :=
  if env.probePossible then
    match env.createEngine with
    | .error _ => tier2Result env
    | .ok engine =>
      match env.smokeContent engine with
      | .error _ => tier2Result env
      | .ok content =>
        let testText := content.getD ""
        if testText == "" || testText.trim == "" then tier2Result env
        else .ok (.fast engine)
  else tier2Result env

/-- Settlement of the loader promise: on success the entry is replaced by
the loaded model, on rejection the entry is deleted. -/
def settleLoad (s : MC α β) (modelName : String)
    (outcome : Except String (LoadedHandle α β)) : MC α β :=
  match outcome with
  | .ok h =>
    { s with cache := fun n => if n = modelName then some (.stored h) else s.cache n }
  | .error _ =>
    { s with cache := fun n => if n = modelName then none else s.cache n }

/-- A failing Tier 1: the probe allows WebLLM but instantiation throws,
or the smoke test throws, or its content is missing or trims to empty. -/
def tier1Fails (env : LoadEnv α β) : Prop :=
  env.probePossible = true
  ∧ ((∃ msg, env.createEngine = .error msg)
     ∨ (∃ engine, env.createEngine = .ok engine
        ∧ ((∃ msg, env.smokeContent engine = .error msg)
           ∨ (∃ content, env.smokeContent engine = .ok content
              ∧ ((content.getD "" == "") || ((content.getD "").trim == "")) = true))))

theorem loadWebLLM_fallthrough (env : LoadEnv α β)
    (h : env.probePossible = false ∨ tier1Fails env) :
    loadWebLLMOrFallback env = tier2Result env := by
  rcases h with hp | ⟨hp, hrest⟩
  · simp only [loadWebLLMOrFallback, hp]
    rfl
  · unfold loadWebLLMOrFallback
    rw [if_pos hp]
    rcases hrest with ⟨msg, hc⟩ | ⟨engine, hc, hrest⟩
    · rw [hc]
    · simp only [hc]
      rcases hrest with ⟨msg, hs⟩ | ⟨content, hs, hempty⟩
      · simp only [hs]
      · simp only [hs]
        rw [if_pos hempty]

theorem getModel_miss_fst (s : MC α β) (modelName : String)
    (h : s.cache modelName = none) :
    (getModel s modelName).1 = CEntry.pending s.nextLoadId := by
  simp only [getModel, h]

theorem getModel_miss_cache (s : MC α β) (modelName : String)
    (h : s.cache modelName = none) :
    (getModel s modelName).2.cache modelName = some (CEntry.pending s.nextLoadId) := by
  simp only [getModel, h]
  simp

theorem getModel_miss_log (s : MC α β) (modelName : String)
    (h : s.cache modelName = none) :
    (getModel s modelName).2.loadsStarted = s.loadsStarted ++ [modelName] := by
  simp only [getModel, h]

theorem getModelN_hit (n : Nat) (s : MC α β) (modelName : String) (e : CEntry α β)
    (h : s.cache modelName = some e) :
    getModelN n s modelName = (List.replicate n e, s) := by
  induction n with
  | zero => rfl
  | succ k ih =>
    have hg : getModel s modelName = (e, s) := by
      simp only [getModel, h]
    simp only [getModelN, hg, ih, List.replicate_succ]

/-- Claim C1: when the cache has no entry for the identifier, the first
of n+1 concurrent getModel calls installs one pending entry and starts
one load, and every caller receives that same pending entry; exactly one
load attempt sequence is logged. -/
theorem c1_singleflight (s : MC α β) (modelName : String) (n : Nat)
    (h : s.cache modelName = none) :
    (getModelN (n + 1) s modelName).1
      = List.replicate (n + 1) (CEntry.pending s.nextLoadId)
    ∧ (getModelN (n + 1) s modelName).2.loadsStarted
      = s.loadsStarted ++ [modelName] := by
  constructor
  · simp only [getModelN,
      getModelN_hit n (getModel s modelName).2 modelName _ (getModel_miss_cache s modelName h),
      getModel_miss_fst s modelName h, List.replicate_succ]
  · simp only [getModelN,
      getModelN_hit n (getModel s modelName).2 modelName _ (getModel_miss_cache s modelName h),
      getModel_miss_log s modelName h]

/-- Witness for C1 on the empty cache with three concurrent callers. -/
theorem c1_singleflight_witness :
    ((emptyMC : MC Nat Nat).cache "org/model" = none)
    ∧ (getModelN 3 (emptyMC : MC Nat Nat) "org/model").2.loadsStarted
        = ([] : List String) ++ ["org/model"] := by
  exact ⟨rfl, (c1_singleflight (emptyMC : MC Nat Nat) "org/model" 2 rfl).2⟩

/-- Claim C6: every Tier-1 failure (instantiation exception, smoke-test
exception, or empty smoke response) falls through to Tier 2: the load
result equals the Tier-2 result, so no Tier-1 failure is ever observable
as an error by the caller of getModel. -/
theorem c6_tier1_fallthrough (env : LoadEnv α β) (h : tier1Fails env) :
    loadWebLLMOrFallback env = tier2Result env :=
  loadWebLLM_fallthrough env (Or.inr h)

/-- Environment whose Tier-1 instantiation throws and whose Tier-2
succeeds on the auto device. -/
def envTier1Broken : LoadEnv Nat Nat :=
  ⟨true, .error "CreateMLCEngine failed", fun _ => .ok none, fun _ => .ok 7⟩

/-- Witness for C6: the instantiation failure is invisible and the call
yields the Tier-2 fallback handle. -/
theorem c6_tier1_fallthrough_witness :
    tier1Fails envTier1Broken
    ∧ loadWebLLMOrFallback envTier1Broken = tier2Result envTier1Broken
    ∧ loadWebLLMOrFallback envTier1Broken
        = Except.ok (LoadedHandle.fb 7 "auto") := by
  have ht : tier1Fails envTier1Broken :=
    ⟨rfl, Or.inl ⟨"CreateMLCEngine failed", rfl⟩⟩
  exact ⟨ht, c6_tier1_fallthrough envTier1Broken ht, rfl⟩

/-- Claim C5: when Tier 1 does not succeed and every Tier-2 device fails,
the load rejects with the aggregated error listing each device's failure,
settlement removes the pending cache entry, and a subsequent getModel for
the same identifier starts a second load attempt sequence from scratch. -/
theorem c5_total_failure_purges (s : MC α β) (env : LoadEnv α β)
    (modelName msg : String)
    (h0 : s.cache modelName = none)
    (h1 : env.probePossible = false ∨ tier1Fails env)
    (h2 : env.loadCore "auto" = .error msg) :
    loadWebLLMOrFallback env
      = Except.error (backendsFailedMsg ["auto: " ++ msg])
    ∧ (settleLoad (getModel s modelName).2 modelName (loadWebLLMOrFallback env)).cache
        modelName = none
    ∧ (getModel
        (settleLoad (getModel s modelName).2 modelName (loadWebLLMOrFallback env))
        modelName).2.loadsStarted
      = s.loadsStarted ++ [modelName] ++ [modelName] := by
  have hcat : ("auto" ++ ": " ++ msg : String) = "auto: " ++ msg := by
    have h4 : ("auto" ++ ": " : String) = "auto: " := rfl
    rw [h4]
  have htier2 : tier2Result env
      = Except.error (backendsFailedMsg ["auto: " ++ msg]) := by
    simp only [tier2Result, loadTransformersNow, transformersCandidates,
               loadTransformersGo, h2, List.nil_append, hcat]
  have hload : loadWebLLMOrFallback env
      = Except.error (backendsFailedMsg ["auto: " ++ msg]) := by
    rw [loadWebLLM_fallthrough env h1, htier2]
  have hdel : (settleLoad (getModel s modelName).2 modelName
        (Except.error (backendsFailedMsg ["auto: " ++ msg]))).cache modelName
      = none := by
    simp [settleLoad]
  have hdelLog : (settleLoad (getModel s modelName).2 modelName
        (Except.error (backendsFailedMsg ["auto: " ++ msg]))).loadsStarted
      = (getModel s modelName).2.loadsStarted := by
    simp [settleLoad]
  refine ⟨hload, ?_, ?_⟩
  · rw [hload]
    exact hdel
  · rw [hload]
    rw [getModel_miss_log _ _ hdel, hdelLog, getModel_miss_log s modelName h0]

/-- Environment where the probe rules WebLLM out and the auto device
throws. -/
def envAllFail : LoadEnv Nat Nat :=
  ⟨false, .error "unused", fun _ => .ok none, fun _ => .error "Aborted(). Build with -sASSERTIONS"⟩

/-- Witness for C5 on the empty cache. -/
theorem c5_total_failure_purges_witness :
    ((emptyMC : MC Nat Nat).cache "org/model" = none)
    ∧ loadWebLLMOrFallback envAllFail
        = Except.error (backendsFailedMsg ["auto: " ++ "Aborted(). Build with -sASSERTIONS"])
    ∧ (settleLoad (getModel (emptyMC : MC Nat Nat) "org/model").2 "org/model"
        (loadWebLLMOrFallback envAllFail)).cache "org/model" = none := by
  have h := c5_total_failure_purges (emptyMC : MC Nat Nat) envAllFail
    "org/model" "Aborted(). Build with -sASSERTIONS" rfl (Or.inl rfl) rfl
  exact ⟨rfl, h.1, h.2.1⟩

end Localm
